import Mathlib

/-!
Verification development for the Gepetto IDA plugin (src/gepetto.py).

The plugin glue is embedded shallowly: Python strings become `List Char`,
Python dicts become association lists, and the host (IDA) and remote API
are abstracted as oracle functions passed to the embedded callbacks.
Positions, slicing and the regular expressions used by the plugin are
modelled character by character, following the CPython semantics of the
exact patterns appearing in the source.
-/

set_option maxRecDepth 20000

/-- Python strings are modelled as lists of characters. -/
abbrev PyStr := List Char

/-- Coercion from Lean string literals to the `PyStr` model. -/
def toL (s : String) : PyStr := s.toList

/-- Characters matched by the regex class `[0-9A-Za-z_]` used in the
placeholder pattern of `shrink_decompilation` (src/gepetto.py lines 168-169). -/
def isWordChar (c : Char) : Bool :=
  ('0' ≤ c && c ≤ '9') || ('A' ≤ c && c ≤ 'Z') || ('a' ≤ c && c ≤ 'z') || c = '_'

/-- Length of a match of the regex `\x7b[0-9A-Za-z_]*\x7d` anchored at the head
of `s`, if any.  The character class excludes the closing brace, so the
greedy star is deterministic: a maximal run of word characters must be
followed immediately by a closing brace. -/
def placeholderLen (s : PyStr) : Option Nat :=
  match s with
  | '\x7b' :: rest =>
    let run := rest.takeWhile isWordChar
    match rest.drop run.length with
    | '\x7d' :: _ => some (run.length + 2)
    | _ => none
  | _ => none

/-- Scanning helper for `firstPlaceholderStart`: the regex engine tries each
start position in order. -/
def firstPlaceholderStartAux : PyStr → Nat → Option Nat
  | [], _ => none
  | c :: rest, i =>
    match placeholderLen (c :: rest) with
    | some _ => some i
    | none => firstPlaceholderStartAux rest (i + 1)

/-- Start index of the leftmost match, modelling
`re.search(r'(\x7b[0-9A-Za-z_]*\x7d)', decompilation).start()`
(src/gepetto.py line 168). -/
def firstPlaceholderStart (s : PyStr) : Option Nat :=
  firstPlaceholderStartAux s 0

/-- Scanning helper: end offset of the last placeholder match starting inside
`seg` (offsets relative to the start of `seg`). -/
def lastPlaceholderEndInAux : PyStr → Nat → Option Nat → Option Nat
  | [], _, best => best
  | c :: rest, i, best =>
    lastPlaceholderEndInAux rest (i + 1)
      (match placeholderLen (c :: rest) with
       | some l => some (i + l)
       | none => best)

/-- End offset of the last placeholder starting in `seg`, or `none`. -/
def lastPlaceholderEndIn (seg : PyStr) : Option Nat :=
  lastPlaceholderEndInAux seg 0 none

/-- Scanning helper for `endMatchEnd`.  At each start position `p` the greedy
`.*` (which cannot cross a newline) backtracks to the last placeholder
starting on the line of `p`; the first position with any such placeholder
wins, so the overall match ends at the end of the last placeholder of the
first placeholder-bearing line. -/
def endMatchEndAux : PyStr → Nat → Option Nat
  | [], _ => none
  | c :: rest, p =>
    let seg := (c :: rest).takeWhile (fun x => x ≠ '\n')
    match lastPlaceholderEndIn seg with
    | some e => some (p + e)
    | none => endMatchEndAux rest (p + 1)

/-- End index of the leftmost match of
`re.search(r'.*(\x7b[0-9A-Za-z_]*\x7d)', decompilation)` without DOTALL
(src/gepetto.py line 169). -/
def endMatchEnd (s : PyStr) : Option Nat :=
  endMatchEndAux s 0

/-- Scanning helper for `findSub`. -/
def findSubAux (needle : PyStr) : PyStr → Nat → Option Nat
  | [], i => if needle = [] then some i else none
  | c :: rest, i =>
    if needle.isPrefixOf (c :: rest) then some i else findSubAux needle rest (i + 1)

/-- Index of the first occurrence of `needle` in `hay`, modelling Python
`str.find` (which returns -1 on failure; callers handle the `none` case the
way the Python call sites handle -1). -/
def findSub (needle hay : PyStr) : Option Nat :=
  findSubAux needle hay 0

/-- Python slicing `s[:k]` including the negative-index convention. -/
def pySliceTo (s : PyStr) (k : Int) : PyStr :=
  if 0 ≤ k then s.take k.toNat else s.take (s.length - (-k).toNat)

/-- Python `s.split('\n', 1)[-1]`: everything after the first newline, or the
whole string when it has no newline. -/
def splitOnceTail (s : PyStr) : PyStr :=
  match s.findIdx? (fun c => c = '\n') with
  | some i => s.drop (i + 1)
  | none => s

/-- Python `s.rsplit('\n', 1)[0]`: everything before the last newline, or the
whole string when it has no newline. -/
def rsplitOnceHead (s : PyStr) : PyStr :=
  match s.reverse.findIdx? (fun c => c = '\n') with
  | some j => s.take (s.length - 1 - j)
  | none => s

/-- The elision marker line inserted by `shrink_decompilation`. -/
def ellipsisLine : PyStr := toL "// ..."

/-- Start boundary of `shrink_decompilation`:
`start_match.start() if start_match is not None else 0` (line 170). -/
def shrinkStart (decompilation : PyStr) : Nat :=
  (firstPlaceholderStart decompilation).getD 0

/-- End boundary of `shrink_decompilation`:
`end_match.end() if end_match is not None else len(decompilation)` (line 171). -/
def shrinkEnd (decompilation : PyStr) : Nat :=
  (endMatchEnd decompilation).getD decompilation.length

/-- The `func_content_start = decompilation.find('\n\x7b\n') + 2` computation of
`shrink_decompilation` (line 175); Python yields -1 + 2 = 1 when the needle
is absent. -/
def funcContentStart (decompilation : PyStr) : Nat :=
  match findSub (toL "\n\x7b\n") decompilation with
  | some i => i + 2
  | none => 1

/-- The trailing truncation step of `shrink_decompilation` (lines 182-184):
when `end + window - sw < len(text) - 1`, keep `text[:end+window-sw]`, drop
its final partial line, and append an ellipsis line and a closing brace. -/
def shrinkBack (endI : Nat) (window : Nat) (sw : Nat) (text : PyStr) : PyStr :=
  if (endI : Int) + window - sw < (text.length : Int) - 1 then
    let cut := rsplitOnceHead (pySliceTo text ((endI : Int) + window - sw))
    cut ++ '\n' :: ellipsisLine ++ '\n' :: ['\x7d']
  else text

/-- Embedding of `shrink_decompilation(decompilation, window)`
(src/gepetto.py lines 160-187).  The Python default for `window` is 320;
callers of the embedding pass it explicitly. -/
def shrink_decompilation (decompilation : PyStr) (window : Nat) : PyStr :=
  if 0 < shrinkStart decompilation then
    if (shrinkStart decompilation : Int) - window > 0 then
      let sw := max (funcContentStart decompilation) (shrinkStart decompilation - window)
      let title := decompilation.take (funcContentStart decompilation)
      let content := splitOnceTail (decompilation.drop sw)
      let text := title ++ '\n' :: ellipsisLine ++ '\n' :: content
      shrinkBack (shrinkEnd decompilation) window sw text
    else
      shrinkBack (shrinkEnd decompilation) window 0 decompilation
  else decompilation

/-- Python JSON values as produced by `json.loads`. -/
inductive PyJson where
  | null
  | bool (b : Bool)
  | int (n : Int)
  | str (s : PyStr)
  | arr (elems : List PyJson)
  | obj (members : List (PyStr × PyJson))

/-- JSON whitespace accepted between tokens by `json.loads`. -/
def isJsonWs (c : Char) : Bool :=
  c = ' ' || c = '\t' || c = '\n' || c = '\r'

/-- Drop leading JSON whitespace. -/
def jsonSkipWs (s : PyStr) : PyStr := s.dropWhile isJsonWs

/-- ASCII decimal digit test (also the `\d` class of the plugin regexes and
the character test of Python `str.isdigit` for ASCII input). -/
def isDigitChar (c : Char) : Bool := '0' ≤ c && c ≤ '9'

/-- Numeric value of a digit string. -/
def digitsToNat (ds : PyStr) : Nat :=
  ds.foldl (fun acc c => acc * 10 + (c.toNat - 48)) 0

/-- Parse a maximal nonempty run of decimal digits, as matched by a greedy
`\d+` whose follower cannot be a digit. -/
def parseJsonNat (s : PyStr) : Option (Nat × PyStr) :=
  let ds := s.takeWhile isDigitChar
  if ds = [] then none else some (digitsToNat ds, s.drop ds.length)

/-- Hexadecimal digit test for `\u` escapes. -/
def isHexChar (c : Char) : Bool :=
  isDigitChar c || ('a' ≤ c && c ≤ 'f') || ('A' ≤ c && c ≤ 'F')

/-- Value of one hexadecimal digit. -/
def hexVal (c : Char) : Nat :=
  if isDigitChar c then c.toNat - 48
  else if 'a' ≤ c && c ≤ 'f' then c.toNat - 87
  else c.toNat - 55

/-- Numeric value of a hexadecimal digit string. -/
def hexToNat (ds : PyStr) : Nat :=
  ds.foldl (fun acc c => acc * 16 + hexVal c) 0

/-- The single-character JSON string escapes accepted by `json.loads`. -/
def simpleEscape (c : Char) : Option Char :=
  if c = '"' then some '"'
  else if c = '\\' then some '\\'
  else if c = '/' then some '/'
  else if c = 'b' then some '\x08'
  else if c = 'f' then some '\x0c'
  else if c = 'n' then some '\n'
  else if c = 'r' then some '\r'
  else if c = 't' then some '\t'
  else none

/-- Body of a JSON string literal, after the opening quote: returns the decoded
characters and the input following the closing quote.  Unescaped control
characters below 0x20 are rejected, as in strict `json.loads`.  Surrogate
pairing of consecutive `\u` escapes is not modelled. -/
def parseJsonString : PyStr → Option (PyStr × PyStr)
  | [] => none
  | '"' :: rest => some ([], rest)
  | '\\' :: 'u' :: h1 :: h2 :: h3 :: h4 :: r3 =>
    if [h1, h2, h3, h4].all isHexChar then
      match parseJsonString r3 with
      | some (cs, r4) => some (Char.ofNat (hexToNat [h1, h2, h3, h4]) :: cs, r4)
      | none => none
    else none
  | '\\' :: e :: r2 =>
    match simpleEscape e with
    | some c =>
      match parseJsonString r2 with
      | some (cs, r3) => some (c :: cs, r3)
      | none => none
    | none => none
  | c :: rest =>
    if c.toNat < 32 then none
    else
      match parseJsonString rest with
      | some (cs, r2) => some (c :: cs, r2)
      | none => none

/-- Insertion into the association list modelling a Python dict: a repeated
key overwrites the stored value in place, later keys are appended, matching
dict insertion order. -/
def objInsert : List (PyStr × PyJson) → PyStr → PyJson → List (PyStr × PyJson)
  | [], k, v => [(k, v)]
  | (k0, v0) :: rest, k, v =>
    if k0 = k then (k0, v) :: rest else (k0, v0) :: objInsert rest k v

/-- Parser mode: a plain value, the member list of an object, or the element
list of an array (with the members or elements parsed so far). -/
inductive ParseMode where
  | value
  | members (acc : List (PyStr × PyJson))
  | elems (acc : List PyJson)

/-- Recursive-descent JSON parser modelling `json.loads` (used at
src/gepetto.py line 330), structured on a fuel argument so that it reduces
definitionally.  Numbers are modelled for integer literals only (the replies
the plugin consumes are objects of strings); floats, exponents and the
leading-zero restriction of `json.loads` are outside the model. -/
def parseJson : Nat → ParseMode → PyStr → Option (PyJson × PyStr)
  | 0, _, _ => none
  | fuel + 1, .value, s =>
    match s with
    | [] => none
    | '\x7b' :: rest =>
      match jsonSkipWs rest with
      | '\x7d' :: r2 => some (.obj [], r2)
      | r => parseJson fuel (.members []) r
    | '[' :: rest =>
      match jsonSkipWs rest with
      | ']' :: r2 => some (.arr [], r2)
      | r => parseJson fuel (.elems []) r
    | '"' :: rest =>
      match parseJsonString rest with
      | some (cs, r2) => some (.str cs, r2)
      | none => none
    | 't' :: 'r' :: 'u' :: 'e' :: r => some (.bool true, r)
    | 'f' :: 'a' :: 'l' :: 's' :: 'e' :: r => some (.bool false, r)
    | 'n' :: 'u' :: 'l' :: 'l' :: r => some (.null, r)
    | '-' :: rest =>
      match parseJsonNat rest with
      | some (n, r) => some (.int (-(n : Int)), r)
      | none => none
    | c :: rest =>
      match parseJsonNat (c :: rest) with
      | some (n, r) => some (.int n, r)
      | none => none
  | fuel + 1, .members acc, s =>
    match s with
    | '"' :: rest =>
      match parseJsonString rest with
      | none => none
      | some (k, r1) =>
        match jsonSkipWs r1 with
        | ':' :: r2 =>
          match parseJson fuel .value (jsonSkipWs r2) with
          | none => none
          | some (v, r3) =>
            match jsonSkipWs r3 with
            | ',' :: r4 =>
              match jsonSkipWs r4 with
              | '"' :: r5 => parseJson fuel (.members (objInsert acc k v)) ('"' :: r5)
              | _ => none
            | '\x7d' :: r4 => some (.obj (objInsert acc k v), r4)
            | _ => none
        | _ => none
    | _ => none
  | fuel + 1, .elems acc, s =>
    match parseJson fuel .value s with
    | none => none
    | some (v, r1) =>
      match jsonSkipWs r1 with
      | ',' :: r2 => parseJson fuel (.elems (acc ++ [v])) (jsonSkipWs r2)
      | ']' :: r2 => some (.arr (acc ++ [v]), r2)
      | _ => none

/-- Top-level `json.loads`: parse one value and require only whitespace after
it. -/
def jsonLoads (s : PyStr) : Option PyJson :=
  match parseJson (s.length + 1) .value (jsonSkipWs s) with
  | some (v, rest) => if jsonSkipWs rest = [] then some v else none
  | none => none

/-- The leftmost match of `re.search(r"\x7b[^\x7d]*?\x7d", response)`
(src/gepetto.py line 318): the lazy star cannot cross a closing brace, so
the match runs from the first opening brace that is followed by some closing
brace up to the first closing brace after it. -/
def firstBraceMatch : PyStr → Option PyStr
  | [] => none
  | '\x7b' :: rest =>
    let body := rest.takeWhile (fun c => c ≠ '\x7d')
    match rest.drop body.length with
    | '\x7d' :: _ => some ('\x7b' :: (body ++ ['\x7d']))
    | _ => firstBraceMatch rest
  | _ :: rest => firstBraceMatch rest

/-- Observable outcome of one call to `extract_json_or_retry`: a parsed value
returned to the caller, a single repair query issued asynchronously with the
bumped retry counter, or giving up and dumping the raw response. -/
inductive ExtractResult where
  | success (data : PyJson)
  | repairQuery (prompt : PyStr) (retries : Nat)
  | giveUp (dumped : PyStr)

/-- The repair prompt sent when no brace-delimited substring was found
(src/gepetto.py lines 325-326). -/
def fixResponsePrompt (response : PyStr) : PyStr :=
  toL "The JSON document provided in this response is invalid. Can you fix it?\n" ++ response

/-- The repair prompt sent when the matched substring failed to parse
(src/gepetto.py line 337). -/
def fixJsonPrompt (grp : PyStr) : PyStr :=
  toL "Please fix the following JSON document:\n" ++ grp

/-- Embedding of `extract_json_or_retry(response, retries, ...)`
(src/gepetto.py lines 309-340).  The callback and keyword arguments are
administrative plumbing; the observable behaviour is the returned value or
the single repair query carrying `retries + 1`. -/
def extract_json_or_retry (response : PyStr) (retries : Nat) : ExtractResult :=
  match firstBraceMatch response with
  | none =>
    if retries ≥ 3 then .giveUp response
    else .repairQuery (fixResponsePrompt response) (retries + 1)
  | some grp =>
    match jsonLoads grp with
    | none =>
      if retries ≥ 3 then .giveUp response
      else .repairQuery (fixJsonPrompt grp) (retries + 1)
    | some data => .success data

/-- Number of repair queries issued along a chain of repair replies: starting
from a call with the given retry counter, each response in the list is fed
to the next `extract_json_or_retry` call with the counter produced by the
previous one, until the function returns data or gives up. -/
def repairChainCount : List PyStr → Nat → Nat
  | [], _ => 0
  | r :: rs, retries =>
    match extract_json_or_retry r retries with
    | .repairQuery _ n => 1 + repairChainCount rs n
    | _ => 0

/-- Whitespace characters stripped by Python `str.strip()` (ASCII range). -/
def isPySpace (c : Char) : Bool :=
  c = ' ' || c = '\t' || c = '\n' || c = '\r' || c = '\x0b' || c = '\x0c'

/-- Python `str.strip()`. -/
def pyStrip (s : PyStr) : PyStr :=
  ((s.dropWhile isPySpace).reverse.dropWhile isPySpace).reverse

/-- A chunk consisting solely of whitespace (Python chunk.strip() == ''). -/
def isWsChunk (ch : PyStr) : Bool := ch.all isPySpace

/-- Fuel-driven splitting of a text into maximal runs of whitespace and
non-whitespace characters, modelling the chunking step of `textwrap.wrap`
with `replace_whitespace=False` (hyphen-based sub-splitting of words is not
modelled; the explain replies the plugin wraps are plain prose). -/
def splitChunksAux : Nat → PyStr → List PyStr
  | 0, _ => []
  | _, [] => []
  | fuel + 1, c :: rest =>
    let run := (c :: rest).takeWhile (fun x => isPySpace x = isPySpace c)
    run :: splitChunksAux fuel ((c :: rest).drop run.length)

/-- Split a text into alternating whitespace and word chunks. -/
def splitChunks (s : PyStr) : List PyStr := splitChunksAux (s.length + 1) s

/-- Greedily take chunks while the accumulated length stays within `width`,
returning the taken chunks and the remainder. -/
def fillLine (width : Nat) : List PyStr → Nat → (List PyStr × List PyStr)
  | [], _ => ([], [])
  | ch :: rest, curLen =>
    if curLen + ch.length ≤ width then
      let pr := fillLine width rest (curLen + ch.length)
      (ch :: pr.1, pr.2)
    else ([], ch :: rest)

/-- Drop a trailing whitespace chunk from a line under construction
(the `drop_whitespace=True` default of `textwrap`). -/
def dropLastWsChunk (cur : List PyStr) : List PyStr :=
  match cur.reverse with
  | last :: revFront => if isWsChunk last then revFront.reverse else cur
  | [] => cur

/-- One outer iteration of the `textwrap` wrapping loop per produced line:
drop a leading whitespace chunk once earlier lines exist, fill greedily,
break an over-long word at the remaining width (`break_long_words=True`),
and drop a trailing whitespace chunk. -/
def wrapLoop (width : Nat) : Nat → List PyStr → Bool → List PyStr
  | 0, _, _ => []
  | _, [], _ => []
  | fuel + 1, c0 :: rest0, linesExist =>
    let chunks := if linesExist && isWsChunk c0 then rest0 else c0 :: rest0
    let pr := fillLine width chunks 0
    let cur := pr.1
    let curLen := (cur.map List.length).foldl (· + ·) 0
    let pr2 :=
      match pr.2 with
      | ch :: rest =>
        if width < ch.length then
          let spaceLeft := if width < 1 then 1 else width - curLen
          (cur ++ [ch.take spaceLeft], ch.drop spaceLeft :: rest)
        else (cur, ch :: rest)
      | [] => (cur, [])
    let cur2 := dropLastWsChunk pr2.1
    let line := cur2.foldl (· ++ ·) []
    if cur2 = [] then wrapLoop width fuel pr2.2 linesExist
    else line :: wrapLoop width fuel pr2.2 true

/-- Model of `textwrap.wrap(text, width, replace_whitespace=False)` as used at
src/gepetto.py line 229 (tab expansion is not modelled; replies carry no
tabs in the modelled scenarios). -/
def textwrapWrap (width : Nat) (text : PyStr) : List PyStr :=
  wrapLoop width (text.length + 1) (splitChunks text) false

/-- Python `'\n'.join(lines)`. -/
def joinNewline : List PyStr → PyStr
  | [] => []
  | [l] => l
  | l :: ls => l ++ '\n' :: joinNewline ls

/-- The opening marker `'----- ' + "Comment generated by Gepetto" + ' -----'`
of the Gepetto comment block (src/gepetto.py lines 233 and 238; the gettext
catalog falls back to the identity for the default empty language). -/
def gepettoStartMarker : PyStr := toL "----- Comment generated by Gepetto -----"

/-- The closing marker of the Gepetto comment block: forty dashes
(src/gepetto.py lines 233 and 240). -/
def gepettoEndMarker : PyStr :=
  toL "----------------------------------------"

/-- Fuel-driven model of
`re.sub(r'----- Comment generated by Gepetto -----.*?----- ... -----', '',
comment, flags=re.DOTALL)` (src/gepetto.py lines 233-236): repeatedly find
the leftmost occurrence of the start marker, lazily find the first closing
run of forty dashes after it, delete the span, and continue after it; if the
start marker has no closing marker after it the pattern cannot match there
or anywhere later, and the string is returned as is. -/
def removeGepettoBlocksAux : Nat → PyStr → PyStr
  | 0, s => s
  | fuel + 1, s =>
    match findSub gepettoStartMarker s with
    | none => s
    | some p =>
      let rest := s.drop (p + gepettoStartMarker.length)
      match findSub gepettoEndMarker rest with
      | none => s
      | some q =>
        s.take p ++ removeGepettoBlocksAux fuel (rest.drop (q + gepettoEndMarker.length))

/-- The `re.sub` call of `comment_callback` deleting every previously inserted
Gepetto block from the existing function comment. -/
def removeGepettoBlocks (s : PyStr) : PyStr := removeGepettoBlocksAux (s.length + 1) s

/-- Embedding of `comment_callback(address, view, response)`
(src/gepetto.py lines 222-246): the new function comment written by
`idc.set_func_cmt`, as a function of the model reply and the previous
comment text read by `idc.get_func_cmt`. -/
def comment_callback_comment (response oldComment : PyStr) : PyStr :=
  let wrapped := joinNewline (textwrapWrap 80 response)
  let cleaned := removeGepettoBlocks oldComment
  gepettoStartMarker ++ toL "\n\n" ++ pyStrip wrapped ++ toL "\n\n" ++
    gepettoEndMarker ++ toL "\n\n" ++ pyStrip cleaned

/-- Scanning helper for `subWholeWord`, carrying the character preceding the
current position of the original string (for the left word-boundary test). -/
def subWholeWordAux (old new : PyStr) : Nat → Option Char → PyStr → PyStr
  | 0, _, s => s
  | fuel + 1, prev, s =>
    match s with
    | [] => []
    | c :: rest =>
      if old.isPrefixOf (c :: rest)
          && (match prev with | none => true | some p => !(isWordChar p))
          && (match (c :: rest).drop old.length with
              | [] => true
              | d :: _ => !(isWordChar d)) then
        new ++ subWholeWordAux old new fuel old.getLast? ((c :: rest).drop old.length)
      else
        c :: subWholeWordAux old new fuel (some c) rest

/-- Model of `re.sub(r'\bOLD\b', NEW, s)` (src/gepetto.py line 299) for an
identifier `OLD` made of word characters: replace every occurrence of `OLD`
delimited by word boundaries, scanning left to right without overlap.  The
degenerate empty pattern is returned unchanged (the rename map never
produces it in the modelled scenarios). -/
def subWholeWord (old new s : PyStr) : PyStr :=
  if old = [] then s else subWholeWordAux old new (s.length + 1) none s

/-- Observable outcome of `rename_callback` on host state: which old names
were successfully renamed, the resulting function comment, and the count
reported in the final message (src/gepetto.py line 305). -/
structure RenameOutcome where
  replaced : List PyStr
  comment : PyStr
  reported : Nat

/-- Python dict lookup `names[n]` on the association-list model (keys of a
dict are unique, so the first hit is the binding). -/
def lookupVal (names : List (PyStr × PyStr)) (k : PyStr) : PyStr :=
  match names.find? (fun kv => kv.1 = k) with
  | some kv => kv.2
  | none => []

/-- Embedding of the application part of `rename_callback`
(src/gepetto.py lines 287-305).  `renameOk` abstracts the host call
`ida_hexrays.rename_lvar(function_addr, n, names[n])`, which can fail per
pair independently; `names` is the extracted mapping and `comment` the
current function comment.  Comment rewriting happens only when the comment
is truthy and at least one rename succeeded, exactly as in the source. -/
def rename_callback_apply (renameOk : PyStr → PyStr → Bool)
    (names : List (PyStr × PyStr)) (comment : PyStr) : RenameOutcome :=
  let replaced := (names.filter (fun kv => renameOk kv.1 kv.2)).map (fun kv => kv.1)
  let comment2 :=
    if comment ≠ [] ∧ 0 < replaced.length then
      replaced.foldl (fun c n => subWholeWord n (lookupVal names n) c) comment
    else comment
  ⟨replaced, comment2, replaced.length⟩

/-- Python `str.isdigit` for ASCII strings: nonempty and all digits. -/
def isAllDigits (s : PyStr) : Bool := s ≠ [] && s.all isDigitChar

/-- Fuel-driven decimal rendering helper. -/
def natToDecAux : Nat → Nat → PyStr
  | 0, _ => []
  | fuel + 1, n =>
    if n < 10 then [Char.ofNat (48 + n)]
    else natToDecAux fuel (n / 10) ++ [Char.ofNat (48 + n % 10)]

/-- Python `str(i)` for a natural number. -/
def natToDec (n : Nat) : PyStr := natToDecAux (n + 1) n

/-- Python `kwargs.get(k)`: the stored value or `None`. -/
def lookupJson (kwargs : List (PyStr × PyJson)) (k : PyStr) : Option PyJson :=
  match kwargs.find? (fun kv => kv.1 = k) with
  | some kv => some kv.2
  | none => none

/-- Observable outcome of `inline_comments_callback` on host state: the early
return on a falsy mapping, an uncaught ValueError raised while building the
positional-argument list (leaving the comments untouched and unsaved), or
completion with the rewritten comments and a save. -/
inductive InlineOutcome where
  | earlyReturn (cmts : List (Nat × PyStr)) (saved : Bool)
  | raisedValueError (cmts : List (Nat × PyStr)) (saved : Bool)
  | completed (cmts : List (Nat × PyStr)) (saved : Bool)
deriving DecidableEq

/-- The `make_args` lambda of `inline_comments_callback` (src/gepetto.py
line 140), defined when at least one key is all digits:
`[kwargs.get(str(i)) for i in range(max(map(int, filter(str.isdigit, keys))) + 1)]`. -/
def make_args (kwargs : List (PyStr × PyJson)) : List (Option PyJson) :=
  let digitKeys := (kwargs.map (fun kv => kv.1)).filter isAllDigits
  let mx := (digitKeys.map digitsToNat).foldl Nat.max 0
  (List.range (mx + 1)).map (fun i => lookupJson kwargs (natToDec i))

/-- Embedding of `inline_comments_callback` after JSON extraction
(src/gepetto.py lines 123-156).  `fmt` abstracts Python
`cmt.format(*args, **kwargs)`, returning `none` for the exceptions the
per-comment `try` swallows; `userCmts` is the per-address comment map of the
decompiled function.  A falsy (empty) mapping returns early; otherwise, if no
key is entirely digits, `max()` inside `make_args` raises an uncaught
ValueError before any comment is touched or saved. -/
def inline_comments_apply
    (fmt : PyStr → List (Option PyJson) → List (PyStr × PyJson) → Option PyStr)
    (userCmts : List (Nat × PyStr)) (kwargs : List (PyStr × PyJson)) : InlineOutcome :=
  match kwargs with
  | [] => .earlyReturn userCmts false
  | k0 :: krest =>
    if (((k0 :: krest).map (fun kv => kv.1)).filter isAllDigits) = [] then
      .raisedValueError userCmts false
    else
      let args := make_args (k0 :: krest)
      let cmts2 := userCmts.map (fun kc => (kc.1, (fmt kc.2 args (k0 :: krest)).getD kc.2))
      .completed cmts2 true

/-- One chat-completion request as issued by `openai.ChatCompletion.create`
in `query_model` (src/gepetto.py lines 379-384): the call passes the model
name and the single user message only, so the issued request carries no
maximum-completion-tokens field. -/
structure ChatRequest where
  model : PyStr
  content : PyStr
  maxCompletionTokens : Option Nat

/-- The request `query_model` issues for a query: note the absent
`max_tokens`, even though the function threads a `max_tokens` parameter. -/
def mkChatRequest (query : PyStr) : ChatRequest :=
  ⟨toL "gpt-3.5-turbo", query, none⟩

/-- Outcome of one remote API call, abstracting the `openai` client:
a successful reply, an `InvalidRequestError` with its message text, another
`OpenAIError`, or any other exception. -/
inductive ApiOutcome where
  | ok (text : PyStr)
  | invalidRequest (err : PyStr)
  | openAIErr (err : PyStr)
  | otherExc (err : PyStr)

/-- Match a literal at the head of the input, returning the remainder. -/
def dropLit (lit s : PyStr) : Option PyStr :=
  if lit.isPrefixOf s then some (s.drop lit.length) else none

/-- Try the context-length error pattern anchored at the head of `s`:
`maximum context length is (\d+) tokens, however you requested \d+ tokens
\((\d+) in your prompt;` returning the two captured groups
(src/gepetto.py lines 389-390). -/
def ctxErrMatchAt (s : PyStr) : Option (Nat × Nat) :=
  match dropLit (toL "maximum context length is ") s with
  | none => none
  | some r1 =>
    match parseJsonNat r1 with
    | none => none
    | some (h, r2) =>
      match dropLit (toL " tokens, however you requested ") r2 with
      | none => none
      | some r3 =>
        match parseJsonNat r3 with
        | none => none
        | some (_, r4) =>
          match dropLit (toL " tokens (") r4 with
          | none => none
          | some r5 =>
            match parseJsonNat r5 with
            | none => none
            | some (p, r6) =>
              match dropLit (toL " in your prompt;") r6 with
              | some _ => some (h, p)
              | none => none

/-- The `re.search` for the context-length pattern over the error text:
scan start positions left to right. -/
def parseCtxError : PyStr → Option (Nat × Nat)
  | [] => none
  | c :: rest =>
    match ctxErrMatchAt (c :: rest) with
    | some hp => some hp
    | none => parseCtxError rest

/-- Observable outcome of a `query_model` invocation: the callback scheduled
on the UI thread with the reply, the message that the function is too big
for the API limits, any other reported error, or exhaustion of the fuel
bounding the recursion (the source recursion has no such bound).  Each
outcome records every request issued along the way. -/
inductive QueryOutcome where
  | callbackScheduled (response : PyStr) (requests : List ChatRequest)
  | tooBigFailure (requests : List ChatRequest)
  | errorReported (requests : List ChatRequest)
  | outOfFuel (requests : List ChatRequest)

/-- Embedding of `query_model(query, cb, max_tokens)` (src/gepetto.py lines
371-406).  `api i` is the outcome of the i-th `ChatCompletion.create` call.
The `max_tokens` parameter is threaded exactly as in the source: it is
recomputed as `hard_limit - prompt_tokens` from the parsed error text and
passed to the recursive retry, but never placed into the issued request.
The fuel argument only bounds the recursion depth of the model. -/
def query_model_run (api : Nat → ApiOutcome) (query : PyStr) :
    Nat → Int → Nat → List ChatRequest → QueryOutcome
  | 0, _, _, sent => .outOfFuel sent
  | fuel + 1, _, i, sent =>
    let sent2 := sent ++ [mkChatRequest query]
    match api i with
    | .ok text => .callbackScheduled text sent2
    | .invalidRequest err =>
      match parseCtxError err with
      | none => .errorReported sent2
      | some hp =>
        let newMax : Int := (hp.1 : Int) - hp.2
        if 750 ≤ newMax then query_model_run api query fuel newMax (i + 1) sent2
        else .tooBigFailure sent2
    | .openAIErr _ => .errorReported sent2
    | .otherExc _ => .errorReported sent2

/-- A context-length error text in the shape produced by the OpenAI API, with
the stated hard limit, requested total and prompt token count. -/
def ctxErrText (h req p : Nat) : PyStr :=
  toL "This model\x27s maximum context length is " ++ natToDec h ++
  toL " tokens, however you requested " ++ natToDec req ++ toL " tokens (" ++
  natToDec p ++ toL " in your prompt; " ++ natToDec (req - p) ++
  toL " for the completion). Please reduce your prompt; or completion length."

/-- Decompilation with placeholders on two different lines: the line
`.\x7ba\x7d.` and, beyond it, the line `.\x7bb\x7d.`. -/
def c4ex : PyStr := toL "f()\n\x7b\n.\x7ba\x7d.\nxxxxxxxxxx\n.\x7bb\x7d.\n\x7d"

/-- Decompilation with a single placeholder, several surrounding lines and a
regular opening-brace line. -/
def c8ex : PyStr := toL "f()\n\x7b\naaaa\nbbbb\ncc\x7bx\x7ddd\neeee\nffff\n\x7d"

/-- Decompilation with exactly one placeholder whose line keeps running for
longer than a small window after the placeholder. -/
def c8exOne : PyStr := toL "t\n\x7b\na\x7bx\x7dbcdefghijklmnopqane\n\x7d\n"

/-- Existing function comment holding user text before a previously inserted
Gepetto block, with leading and trailing whitespace around the user text. -/
def c6old : PyStr :=
  toL "  USER NOTE  \n" ++ gepettoStartMarker ++ toL "\n\nold text\n\n" ++ gepettoEndMarker

/-- API oracle answering the first request with a context-length error whose
recomputed budget is 4000 - 3000 = 1000 (viable), then succeeding. -/
def c2api : Nat → ApiOutcome := fun i =>
  if i = 0 then .invalidRequest (ctxErrText 4000 5000 3000) else .ok (toL "done")

/-- API oracle always answering with a context-length error stating a hard
limit of 4000 tokens and 3500 prompt tokens. -/
def c3apiA : Nat → ApiOutcome := fun _ => .invalidRequest (ctxErrText 4000 4250 3500)

/-- API oracle always answering with a context-length error stating a hard
limit of 4000 tokens and 3300 prompt tokens. -/
def c3apiB : Nat → ApiOutcome := fun _ => .invalidRequest (ctxErrText 4000 4000 3300)

/-- API oracle answering every request with the same context-length error
whose recomputed budget 4000 - 3000 = 1000 stays above the 750 floor.  Since
the issued request never changes, a deterministic server behaves exactly
like this oracle. -/
def c9api : Nat → ApiOutcome := fun _ => .invalidRequest (ctxErrText 4000 5000 3000)

/-- Host rename oracle for which renaming succeeds exactly for the old name
v1: models `ida_hexrays.rename_lvar` succeeding on one pair and failing on
the other. -/
def c7ok : PyStr → PyStr → Bool := fun o _ => decide (o = toL "v1")

/-- Helper: an `extract_json_or_retry` call that issues a repair query always
carries the incremented retry counter and only fires below the cap of 3. -/
theorem extract_repairQuery_inv (r p : PyStr) (k n : Nat)
    (h : extract_json_or_retry r k = .repairQuery p n) : n = k + 1 ∧ k < 3 := by
  rcases hm : firstBraceMatch r with _ | grp
  · simp only [extract_json_or_retry, hm] at h
    by_cases hk : k ≥ 3
    · rw [if_pos hk] at h
      exact absurd h (by simp)
    · rw [if_neg hk] at h
      injection h with h1 h2
      exact ⟨h2.symm, by omega⟩
  · rcases hj : jsonLoads grp with _ | v
    · simp only [extract_json_or_retry, hm, hj] at h
      by_cases hk : k ≥ 3
      · rw [if_pos hk] at h
        exact absurd h (by simp)
      · rw [if_neg hk] at h
        injection h with h1 h2
        exact ⟨h2.symm, by omega⟩
    · simp only [extract_json_or_retry, hm, hj] at h
      exact absurd h (by simp)

/-- Helper: along any chain of repair replies, the number of repair queries
issued from a call with counter `k` is at most `3 - k`. -/
theorem repairChainCount_le (rs : List PyStr) : ∀ k, repairChainCount rs k ≤ 3 - k := by
  induction rs with
  | nil => intro k; simp [repairChainCount]
  | cons r rs ih =>
    intro k
    rcases hres : extract_json_or_retry r k with v | ⟨p, n⟩ | d
    · simp [repairChainCount, hres]
    · obtain ⟨hn, hk⟩ := extract_repairQuery_inv r p k n hres
      subst hn
      have h2 := ih (k + 1)
      simp only [repairChainCount, hres]
      omega
    · simp [repairChainCount, hres]

/-- C1: if the first brace-delimited substring found by the lazy pattern
`\x7b[^\x7d]*?\x7d` parses as JSON, `extract_json_or_retry` returns exactly
the parsed value on the first attempt, with no repair query, for any value
of the retry counter.  (The claim as originally stated, covering nested
objects and closing braces inside string values, is refuted by
`c1_nested_object_counterexample`: the regex stops at the first closing
brace, so such objects are truncated and a repair query is issued.) -/
theorem c1_first_brace_json_parsed (r grp : PyStr) (v : PyJson) (retries : Nat)
    (h1 : firstBraceMatch r = some grp) (h2 : jsonLoads grp = some v) :
    extract_json_or_retry r retries = .success v := by
  simp only [extract_json_or_retry, h1, h2]

/-- C1 witness: a reply with a flat JSON object is parsed on the first
attempt. -/
theorem c1_first_brace_json_parsed_witness :
    firstBraceMatch (toL "noise \x7b\"a\": 1\x7d t") = some (toL "\x7b\"a\": 1\x7d") ∧
    jsonLoads (toL "\x7b\"a\": 1\x7d") = some (.obj [(toL "a", PyJson.int 1)]) ∧
    extract_json_or_retry (toL "noise \x7b\"a\": 1\x7d t") 0 =
      .success (.obj [(toL "a", PyJson.int 1)]) :=
  ⟨rfl, rfl, c1_first_brace_json_parsed (toL "noise \x7b\"a\": 1\x7d t")
    (toL "\x7b\"a\": 1\x7d") (.obj [(toL "a", PyJson.int 1)]) 0 rfl rfl⟩

/-- C1 counterexample: the reply consisting of the well-formed nested JSON
object text with keys a and b is not parsed on the first attempt; the match
is truncated at the first closing brace and a repair query is issued
carrying the truncated fragment, contradicting the claim that extraction
returns the parsed mapping with no repair query for nested objects. -/
theorem c1_nested_object_counterexample :
    extract_json_or_retry (toL "\x7b\"a\": \x7b\"b\": 1\x7d\x7d") 0 =
      .repairQuery (fixJsonPrompt (toL "\x7b\"a\": \x7b\"b\": 1\x7d")) 1 := rfl

/-- C2: evaluation of `query_model` at the failing input.  The first request
receives a context-length error parsed as hard limit 4000 and prompt 3000,
the recomputed budget 1000 passes the 750 floor and exactly one retry is
issued - but the retried request (like every request the embedding of
`openai.ChatCompletion.create` can issue) carries no maximum-completion-
tokens field at all: the recomputed budget is passed to the recursive call
and dropped, contradicting the claim that the retry is issued with that
budget. -/
theorem c2_retry_request_lacks_budget :
    query_model_run c2api (toL "Q") 5 2500 0 [] =
      .callbackScheduled (toL "done")
        [mkChatRequest (toL "Q"), mkChatRequest (toL "Q")] ∧
    parseCtxError (ctxErrText 4000 5000 3000) = some (4000, 3000) ∧
    (mkChatRequest (toL "Q")).maxCompletionTokens = none :=
  ⟨rfl, rfl, rfl⟩

/-- C3 counterexample: with the simulated error text stating hard limit 4000
and 3500 prompt tokens, `query_model` issues exactly one request and reports
the too-big failure: the recomputed budget 500 is below the 750 floor, so no
retry is issued, contradicting the claim that this case yields a retry with
max tokens 500. -/
theorem c3_budget_500_counterexample :
    query_model_run c3apiA (toL "Q") 5 2500 0 [] =
      .tooBigFailure [mkChatRequest (toL "Q")] ∧
    parseCtxError (ctxErrText 4000 4250 3500) = some (4000, 3500) :=
  ⟨rfl, rfl⟩

/-- C3 amended: with hard limit 4000, both 3500 prompt tokens (budget 500)
and 3300 prompt tokens (budget 700) fall below the 750 floor, and in both
cases `query_model` reports failure after a single request, without
retrying. -/
theorem c3_below_floor_no_retry :
    (query_model_run c3apiA (toL "Q") 5 2500 0 [] =
      .tooBigFailure [mkChatRequest (toL "Q")] ∧
     parseCtxError (ctxErrText 4000 4250 3500) = some (4000, 3500)) ∧
    (query_model_run c3apiB (toL "Q") 5 2500 0 [] =
      .tooBigFailure [mkChatRequest (toL "Q")] ∧
     parseCtxError (ctxErrText 4000 4000 3300) = some (4000, 3300)) :=
  ⟨⟨rfl, rfl⟩, ⟨rfl, rfl⟩⟩

/-- C9: under an API oracle that answers every request with the same
context-length error (hard limit 4000, prompt 3000, budget 1000 above the
floor) - exactly what a deterministic server does, since the issued request
never changes - the retry chain of `query_model` never terminates: for
every recursion bound the run exhausts it, issuing one identical request
per step.  The budget does not shrink between retries, contradicting the
claim that each retry strictly shrinks the budget and the chain terminates. -/
theorem c9_constant_error_nonterminating (q : PyStr) :
    ∀ (fuel : Nat) (mt : Int) (i : Nat) (sent : List ChatRequest),
      query_model_run c9api q fuel mt i sent =
        .outOfFuel (sent ++ List.replicate fuel (mkChatRequest q)) := by
  intro fuel
  induction fuel with
  | zero => intro mt i sent; simp [query_model_run]
  | succ f ih =>
    intro mt i sent
    have hstep : query_model_run c9api q (f + 1) mt i sent =
        query_model_run c9api q f 1000 (i + 1) (sent ++ [mkChatRequest q]) := rfl
    rw [hstep, ih]
    simp [List.replicate_succ]

/-- C10 amended: for every nonempty extracted mapping none of whose keys is
entirely digits, `inline_comments_callback` raises an uncaught ValueError
(from `max()` over an empty sequence) while building the positional-argument
list, before any inline comment is substituted or the comment set is saved,
for every format-substitution behaviour and every comment map. -/
theorem c10_no_digit_key_raises
    (fmt : PyStr → List (Option PyJson) → List (PyStr × PyJson) → Option PyStr)
    (userCmts : List (Nat × PyStr)) (kwargs : List (PyStr × PyJson))
    (hne : kwargs ≠ [])
    (hnd : ∀ kv ∈ kwargs, isAllDigits kv.1 = false) :
    inline_comments_apply fmt userCmts kwargs = .raisedValueError userCmts false := by
  cases kwargs with
  | nil => exact absurd rfl hne
  | cons k0 krest =>
    have hf : (((k0 :: krest).map (fun kv => kv.1)).filter isAllDigits) = [] := by
      rw [List.filter_eq_nil_iff]
      intro a ha
      obtain ⟨kv, hkv, hh⟩ := List.mem_map.mp ha
      rw [← hh]
      simp [hnd kv hkv]
    simp only [inline_comments_apply]
    rw [if_pos hf]

/-- C10 witness: a singleton mapping with the non-digit key a aborts with the
ValueError, leaving the comment map untouched and unsaved. -/
theorem c10_no_digit_key_raises_witness :
    ([((toL "a"), PyJson.int 1)] ≠ ([] : List (PyStr × PyJson))) ∧
    (∀ kv ∈ [((toL "a"), PyJson.int 1)], isAllDigits kv.1 = false) ∧
    inline_comments_apply (fun c _ _ => some c) [(0, toL "hi")]
      [((toL "a"), PyJson.int 1)] = .raisedValueError [(0, toL "hi")] false :=
  ⟨List.cons_ne_nil _ _, by decide,
   c10_no_digit_key_raises (fun c _ _ => some c) [(0, toL "hi")]
     [((toL "a"), PyJson.int 1)] (List.cons_ne_nil _ _) (by decide)⟩

/-- C10 counterexample: the empty mapping contains no key consisting entirely
of digits, yet the callback does not raise: the falsy-mapping guard returns
early before `make_args` is ever evaluated, contradicting the claim as
stated for every such mapping. -/
theorem c10_empty_mapping_counterexample :
    inline_comments_apply (fun c _ _ => some c) [(0, toL "hi")] [] =
      .earlyReturn [(0, toL "hi")] false ∧
    inline_comments_apply (fun c _ _ => some c) [(0, toL "hi")] [] ≠
      .raisedValueError [(0, toL "hi")] false :=
  ⟨rfl, by decide⟩

/-- C5: a reply with no brace-delimited substring, handled with the retry
counter below the cap of 3, issues exactly one repair query carrying the
incremented counter; a reply whose matched substring is malformed JSON does
the same with its own repair prompt; and along any chain of repair replies
started at counter 0, at most 3 repair queries are ever issued - in
particular never a 5th - after which the raw response is surfaced and the
operation aborts. -/
theorem c5_repair_queries_capped (r : PyStr) (retries : Nat)
    (h1 : firstBraceMatch r = none) (h2 : retries < 3) :
    extract_json_or_retry r retries =
      .repairQuery (fixResponsePrompt r) (retries + 1) ∧
    (∀ r2 grp, firstBraceMatch r2 = some grp → jsonLoads grp = none →
      extract_json_or_retry r2 retries =
        .repairQuery (fixJsonPrompt grp) (retries + 1)) ∧
    (∀ rs : List PyStr, repairChainCount rs 0 ≤ 3) := by
  refine ⟨?_, ?_, ?_⟩
  · simp only [extract_json_or_retry, h1]
    rw [if_neg (by omega)]
  · intro r2 grp hg hj
    simp only [extract_json_or_retry, hg, hj]
    rw [if_neg (by omega)]
  · intro rs
    simpa using repairChainCount_le rs 0

/-- C5 witness: a braceless reply at counter 0 issues one repair query with
counter 1, and chains stay within 3 queries. -/
theorem c5_repair_queries_capped_witness :
    firstBraceMatch (toL "plain text reply") = none ∧ 0 < 3 ∧
    (extract_json_or_retry (toL "plain text reply") 0 =
       .repairQuery (fixResponsePrompt (toL "plain text reply")) 1 ∧
     (∀ r2 grp, firstBraceMatch r2 = some grp → jsonLoads grp = none →
       extract_json_or_retry r2 0 = .repairQuery (fixJsonPrompt grp) 1) ∧
     (∀ rs : List PyStr, repairChainCount rs 0 ≤ 3)) :=
  ⟨rfl, by decide, c5_repair_queries_capped (toL "plain text reply") 0 rfl (by decide)⟩

/-- C4 counterexample: on `c4ex` the placeholder a sits on the first
placeholder-bearing line and the placeholder b on a later line, the last in
the whole string at index 24.  With window 4 the end boundary is taken from
the first line only, so the output elides the placeholder b entirely -
indeed the truncation index (computed in original-string coordinates but
applied to the rebuilt text) here also cuts the line of a - contradicting
the claim that a window of text after the last placeholder of the whole
string is kept. -/
theorem c4_last_placeholder_dropped_counterexample :
    shrink_decompilation c4ex 4 = toL "f()\n\x7b\n// ...\n\x7d" ∧
    findSub (toL "\x7bb\x7d") c4ex = some 24 ∧
    findSub (toL "\x7bb\x7d") (shrink_decompilation c4ex 4) = none :=
  ⟨rfl, rfl, rfl⟩

/-- C4 amended: `shrink_decompilation` keeps the full text unmodified whenever
the computed start boundary is 0 - that is, when no placeholder exists, and
also when the first placeholder starts at index 0; otherwise its boundaries
are the first placeholder of the whole string and the last placeholder of
the first placeholder-bearing line (not of the whole string), each elided
region is collapsed to a single `// ...` marker line, and the opening-brace
line is preserved on front elision, as exhibited on `c4ex` with window 10,
whose second-line placeholder b is elided behind a single marker while the
first-line placeholder a and the opening-brace line are kept. -/
theorem c4_shrink_boundaries (D : PyStr) (W : Nat)
    (h : shrinkStart D = 0) :
    shrink_decompilation D W = D ∧
    shrink_decompilation c4ex 10 = toL "f()\n\x7b\n.\x7ba\x7d.\n// ...\n\x7d" := by
  constructor
  · unfold shrink_decompilation
    rw [h]
    simp
  · rfl

/-- C4 witness: a decompilation without any placeholder is passed through
unmodified. -/
theorem c4_shrink_boundaries_witness :
    shrinkStart (toL "f()\n\x7b\nreturn 0;\n\x7d") = 0 ∧
    (shrink_decompilation (toL "f()\n\x7b\nreturn 0;\n\x7d") 320 =
       toL "f()\n\x7b\nreturn 0;\n\x7d" ∧
     shrink_decompilation c4ex 10 = toL "f()\n\x7b\n.\x7ba\x7d.\n// ...\n\x7d") :=
  ⟨rfl, c4_shrink_boundaries (toL "f()\n\x7b\nreturn 0;\n\x7d") 320 rfl⟩

/-- C8 counterexample: `c8exOne` contains exactly one placeholder x at index
5, yet with window 5 the shrunk output does not contain it: the trailing
truncation drops the final partial line, and no newline occurs within the
window after the placeholder, so the entire placeholder line is cut,
contradicting the claim that the output always contains the placeholder. -/
theorem c8_placeholder_dropped_counterexample :
    shrink_decompilation c8exOne 5 = toL "t\n\x7b\n// ...\n\x7d" ∧
    findSub (toL "\x7bx\x7d") c8exOne = some 5 ∧
    findSub (toL "\x7bx\x7d") (shrink_decompilation c8exOne 5) = none :=
  ⟨rfl, rfl, rfl⟩

/-- C8 amended: when the kept region needs no elision - the start boundary
lies within the window of the start and the end boundary within the window
of the end - the output is the whole text, hence contains the opening-brace
line, the placeholder and the full span; and on the representative input
`c8ex` (exactly one placeholder) with window 12, where both front and back
elision fire and the window covers the placeholder line, the output keeps
the opening-brace line and the placeholder and collapses each of the two
elided regions to a single `// ...` marker line.  When the placeholder
line extends past the kept window the placeholder itself is dropped (see
the C8 counterexample), so the containment guarantee holds only up to
line-boundary trimming. -/
theorem c8_window_keeps_placeholder (D : PyStr) (W : Nat)
    (hs : shrinkStart D ≤ W)
    (he : (D.length : Int) - 1 ≤ (shrinkEnd D : Int) + W) :
    shrink_decompilation D W = D ∧
    shrink_decompilation c8ex 12 =
      toL "f()\n\x7b\n// ...\nbbbb\ncc\x7bx\x7ddd\n// ...\n\x7d" := by
  constructor
  · unfold shrink_decompilation shrinkBack
    by_cases h0 : 0 < shrinkStart D
    · rw [if_pos h0, if_neg (by omega), if_neg (by push_cast; omega)]
    · rw [if_neg h0]
  · rfl

/-- C8 witness: a one-placeholder decompilation fitting inside the window is
returned whole, and the both-elisions example keeps its placeholder. -/
theorem c8_window_keeps_placeholder_witness :
    shrinkStart (toL "t()\n\x7b\nab\x7bx\x7dcd\n\x7d") ≤ 320 ∧
    ((toL "t()\n\x7b\nab\x7bx\x7dcd\n\x7d").length : Int) - 1 ≤
      (shrinkEnd (toL "t()\n\x7b\nab\x7bx\x7dcd\n\x7d") : Int) + 320 ∧
    (shrink_decompilation (toL "t()\n\x7b\nab\x7bx\x7dcd\n\x7d") 320 =
       toL "t()\n\x7b\nab\x7bx\x7dcd\n\x7d" ∧
     shrink_decompilation c8ex 12 =
       toL "f()\n\x7b\n// ...\nbbbb\ncc\x7bx\x7ddd\n// ...\n\x7d") :=
  ⟨by decide, by decide,
   c8_window_keeps_placeholder (toL "t()\n\x7b\nab\x7bx\x7dcd\n\x7d") 320
     (by decide) (by decide)⟩

/-- C7: for a rename mapping of two pairs where the host accepts the first
pair and rejects the second, each pair having been applied independently,
the outcome is: only the first old name is recorded as replaced, the
function comment (when truthy) has only the successfully renamed identifier
substituted by whole-word matching, and the reported count is 1, which
equals the number of pairs the host accepted. -/
theorem c7_partial_rename (renameOk : PyStr → PyStr → Bool) (a a2 b b2 cmt : PyStr)
    (hok : renameOk a a2 = true) (hko : renameOk b b2 = false) (hcmt : cmt ≠ []) :
    rename_callback_apply renameOk [(a, a2), (b, b2)] cmt =
      ⟨[a], subWholeWord a a2 cmt, 1⟩ ∧
    (rename_callback_apply renameOk [(a, a2), (b, b2)] cmt).reported =
      (([(a, a2), (b, b2)]).filter (fun kv => renameOk kv.1 kv.2)).length := by
  have hfil : ([(a, a2), (b, b2)]).filter (fun kv => renameOk kv.1 kv.2) = [(a, a2)] := by
    simp [List.filter, hok, hko]
  constructor
  · unfold rename_callback_apply
    rw [hfil]
    simp [lookupVal, List.find?, hcmt]
  · unfold rename_callback_apply
    rw [hfil]
    simp

/-- C7 witness: renaming v1 to count succeeds, v2 to size fails; the comment
has only v1 substituted (whole word: the identifier v1x is untouched) and
the reported count is 1. -/
theorem c7_partial_rename_witness :
    c7ok (toL "v1") (toL "count") = true ∧
    c7ok (toL "v2") (toL "size") = false ∧
    toL "v1 and v2, v1x" ≠ [] ∧
    subWholeWord (toL "v1") (toL "count") (toL "v1 and v2, v1x") =
      toL "count and v2, v1x" ∧
    (rename_callback_apply c7ok [(toL "v1", toL "count"), (toL "v2", toL "size")]
       (toL "v1 and v2, v1x") =
        ⟨[toL "v1"], subWholeWord (toL "v1") (toL "count") (toL "v1 and v2, v1x"), 1⟩ ∧
     (rename_callback_apply c7ok [(toL "v1", toL "count"), (toL "v2", toL "size")]
        (toL "v1 and v2, v1x")).reported =
       (([(toL "v1", toL "count"), (toL "v2", toL "size")]).filter
         (fun kv => c7ok kv.1 kv.2)).length) :=
  ⟨rfl, rfl, by decide, rfl,
   c7_partial_rename c7ok (toL "v1") (toL "count") (toL "v2") (toL "size")
     (toL "v1 and v2, v1x") rfl rfl (by decide)⟩

/-- Helper: a needle starting with `d` cannot match at the head of a list
whose head differs from `d`. -/
theorem isPrefixOf_cons_false (d c : Char) (nt s : List Char) (h : c ≠ d) :
    ((d :: nt).isPrefixOf (c :: s)) = false := by
  have hdc : (d == c) = false := beq_eq_false_iff_ne.mpr (fun hh => h hh.symm)
  simp [List.isPrefixOf, hdc]

/-- Helper: scanning for a needle headed by `d` skips over any block of
characters different from `d`. -/
theorem findSubAux_append_skip (needle : PyStr) (d : Char) (hd : needle.head? = some d)
    (U rest : PyStr) (hU : ∀ c ∈ U, c ≠ d) (i : Nat) :
    findSubAux needle (U ++ rest) i = findSubAux needle rest (i + U.length) := by
  obtain ⟨nt, rfl⟩ : ∃ nt, needle = d :: nt := by
    cases needle with
    | nil => simp at hd
    | cons a as =>
      simp at hd
      exact ⟨as, by rw [hd]⟩
  induction U generalizing i with
  | nil => simp
  | cons c U ih =>
    have hc : c ≠ d := hU c (List.mem_cons_self c U)
    show findSubAux (d :: nt) (c :: (U ++ rest)) i = _
    simp only [findSubAux, isPrefixOf_cons_false d c nt _ hc, Bool.false_eq_true,
      if_false]
    rw [ih (fun x hx => hU x (List.mem_cons_of_mem c hx)) (i + 1)]
    congr 1
    simp [List.length_cons]
    omega

/-- Helper: scanning halts with the current index when the needle matches at
the head. -/
theorem findSubAux_of_prefix (needle s : PyStr) (i : Nat)
    (h : needle.isPrefixOf s = true) : findSubAux needle s i = some i := by
  cases s with
  | nil =>
    cases needle with
    | nil => simp [findSubAux]
    | cons a as => simp [List.isPrefixOf] at h
  | cons c rest => simp [findSubAux, h]

/-- Helper: the first occurrence of a needle headed by `d`, after a block free
of `d`, is right at the end of that block when the needle matches there. -/
theorem findSub_boundary (needle : PyStr) (d : Char) (hd : needle.head? = some d)
    (U rest : PyStr) (hU : ∀ c ∈ U, c ≠ d)
    (hpre : needle.isPrefixOf rest = true) :
    findSub needle (U ++ rest) = some U.length := by
  unfold findSub
  rw [findSubAux_append_skip needle d hd U rest hU 0, findSubAux_of_prefix _ _ _ hpre]
  simp

/-- Helper: no occurrence of a needle headed by `d` exists in a list free of
`d`. -/
theorem findSub_none (needle : PyStr) (d : Char) (hd : needle.head? = some d)
    (U : PyStr) (hU : ∀ c ∈ U, c ≠ d) :
    findSub needle U = none := by
  unfold findSub
  have h0 := findSubAux_append_skip needle d hd U [] hU 0
  rw [List.append_nil] at h0
  rw [h0]
  obtain ⟨nt, rfl⟩ : ∃ nt, needle = d :: nt := by
    cases needle with
    | nil => simp at hd
    | cons a as =>
      simp at hd
      exact ⟨as, by rw [hd]⟩
  simp [findSubAux]

/-- Helper: the block remover leaves a dash-free string unchanged at any
fuel. -/
theorem removeGepettoBlocksAux_no_marker (fuel : Nat) (U : PyStr)
    (hU : ∀ c ∈ U, c ≠ '-') : removeGepettoBlocksAux fuel U = U := by
  cases fuel with
  | zero => rfl
  | succ f =>
    simp only [removeGepettoBlocksAux, findSub_none gepettoStartMarker '-' rfl U hU]

/-- Helper: on a comment of the form user text, Gepetto block, user text -
with no dashes outside the markers or inside the block body - the model of
the `re.sub` deletion removes exactly the delimited block. -/
theorem removeGepettoBlocksAux_decomposes (fuel : Nat) (U1 M U2 : PyStr)
    (h1 : ∀ c ∈ U1, c ≠ '-') (hM : ∀ c ∈ M, c ≠ '-') (h2 : ∀ c ∈ U2, c ≠ '-') :
    removeGepettoBlocksAux (fuel + 1)
      (U1 ++ (gepettoStartMarker ++ (M ++ (gepettoEndMarker ++ U2)))) = U1 ++ U2 := by
  have hfind1 : findSub gepettoStartMarker
      (U1 ++ (gepettoStartMarker ++ (M ++ (gepettoEndMarker ++ U2)))) = some U1.length := by
    refine findSub_boundary gepettoStartMarker '-' rfl U1 _ h1 ?_
    exact List.isPrefixOf_iff_prefix.mpr (List.prefix_append _ _)
  have hfind2 : findSub gepettoEndMarker (M ++ (gepettoEndMarker ++ U2)) = some M.length := by
    refine findSub_boundary gepettoEndMarker '-' rfl M _ hM ?_
    exact List.isPrefixOf_iff_prefix.mpr (List.prefix_append _ _)
  have hdrop1 : (U1 ++ (gepettoStartMarker ++ (M ++ (gepettoEndMarker ++ U2)))).drop
      (U1.length + gepettoStartMarker.length) = M ++ (gepettoEndMarker ++ U2) := by
    rw [show U1 ++ (gepettoStartMarker ++ (M ++ (gepettoEndMarker ++ U2))) =
      (U1 ++ gepettoStartMarker) ++ (M ++ (gepettoEndMarker ++ U2)) from
        (List.append_assoc _ _ _).symm,
      show U1.length + gepettoStartMarker.length = (U1 ++ gepettoStartMarker).length from
        (List.length_append _ _).symm,
      List.drop_left]
  have hdrop2 : (M ++ (gepettoEndMarker ++ U2)).drop
      (M.length + gepettoEndMarker.length) = U2 := by
    rw [show M ++ (gepettoEndMarker ++ U2) = (M ++ gepettoEndMarker) ++ U2 from
        (List.append_assoc _ _ _).symm,
      show M.length + gepettoEndMarker.length = (M ++ gepettoEndMarker).length from
        (List.length_append _ _).symm,
      List.drop_left]
  have htake : (U1 ++ (gepettoStartMarker ++ (M ++ (gepettoEndMarker ++ U2)))).take
      U1.length = U1 := List.take_left _ _
  simp only [removeGepettoBlocksAux, hfind1, hdrop1, hfind2, hdrop2, htake,
    removeGepettoBlocksAux_no_marker fuel U2 h2]

/-- Helper: the top-level `re.sub` model removes exactly the delimited block
from a comment shaped as user text, block, user text. -/
theorem removeGepettoBlocks_decomposes (U1 M U2 : PyStr)
    (h1 : ∀ c ∈ U1, c ≠ '-') (hM : ∀ c ∈ M, c ≠ '-') (h2 : ∀ c ∈ U2, c ≠ '-') :
    removeGepettoBlocks (U1 ++ (gepettoStartMarker ++ (M ++ (gepettoEndMarker ++ U2)))) =
      U1 ++ U2 := by
  unfold removeGepettoBlocks
  exact removeGepettoBlocksAux_decomposes _ U1 M U2 h1 hM h2

/-- C6 amended: re-applying a new explanation to a comment holding user text
around a previous Gepetto block (no dashes outside the markers or in the
block body) produces the new delimited block followed by the user text with
the block excised; the user text is preserved character for character except
that it is moved after the new block and stripped of leading and trailing
whitespace - not byte-for-byte in place, as the counterexample shows. -/
theorem c6_outside_text_reattached (U1 M U2 resp : PyStr)
    (h1 : ∀ c ∈ U1, c ≠ '-') (hM : ∀ c ∈ M, c ≠ '-') (h2 : ∀ c ∈ U2, c ≠ '-') :
    comment_callback_comment resp
      (U1 ++ (gepettoStartMarker ++ (M ++ (gepettoEndMarker ++ U2)))) =
      gepettoStartMarker ++ toL "\n\n" ++ pyStrip (joinNewline (textwrapWrap 80 resp)) ++
        toL "\n\n" ++ gepettoEndMarker ++ toL "\n\n" ++ pyStrip (U1 ++ U2) := by
  unfold comment_callback_comment
  rw [removeGepettoBlocks_decomposes U1 M U2 h1 hM h2]

/-- C6 witness: user text on both sides of the old block is excised and
reattached, stripped, after the new block. -/
theorem c6_outside_text_reattached_witness :
    (∀ c ∈ toL "note ", c ≠ '-') ∧ (∀ c ∈ toL "\n\nold\n\n", c ≠ '-') ∧
    (∀ c ∈ toL " tail", c ≠ '-') ∧
    comment_callback_comment (toL "NEW")
      (toL "note " ++ (gepettoStartMarker ++ (toL "\n\nold\n\n" ++
        (gepettoEndMarker ++ toL " tail")))) =
      gepettoStartMarker ++ toL "\n\n" ++
        pyStrip (joinNewline (textwrapWrap 80 (toL "NEW"))) ++
        toL "\n\n" ++ gepettoEndMarker ++ toL "\n\n" ++
        pyStrip (toL "note " ++ toL " tail") :=
  ⟨by decide, by decide, by decide,
   c6_outside_text_reattached (toL "note ") (toL "\n\nold\n\n") (toL " tail")
     (toL "NEW") (by decide) (by decide) (by decide)⟩

/-- C6 counterexample: the old comment starts with the 13 bytes of user text
(with its surrounding whitespace) followed by the old block, but the comment
written back starts with the new block instead, and the user text reappears
only at the end, stripped of its whitespace: the text outside the markers is
not preserved byte-for-byte at its position. -/
theorem c6_user_text_moved_counterexample :
    comment_callback_comment (toL "NEW") c6old =
      gepettoStartMarker ++ toL "\n\nNEW\n\n" ++ gepettoEndMarker ++
        toL "\n\nUSER NOTE" ∧
    c6old.take 13 = toL "  USER NOTE  " ∧
    (comment_callback_comment (toL "NEW") c6old).take 13 ≠ toL "  USER NOTE  " :=
  ⟨rfl, rfl, by decide⟩
